import Mathlib

/-!
Verification of the configuration-resolution and secure-initialization core
of rust-keylime (src/common.rs), as a shallow embedding in Lean 4.

The environment is modelled as a map from variable names to optional string
values (the code treats a non-UTF-8 value the same as an unset one, so a
single `Option String` suffices).  The filesystem, as seen by the INI loader,
is a map from paths to either a parse/load error message or parsed INI data.
All functions of the source are translated directly; stateful code
(`chownroot`) becomes a function returning its result together with the list
of chown system calls it issued.
-/

namespace Keylime

/-- Environment: variable name to value, `none` when unset (or not unicode,
which the source's catch-all branch treats identically). -/
abbrev EnvMap := String → Option String

/-- Parsed INI data: a sequence of sections, each a name with a sequence of
key/value pairs.  Lookup returns the first match, as the ini crate's map does
for well-formed files. -/
structure IniData where
  sections : List (String × List (String × String))
deriving DecidableEq

/-- `Ini::section(Some(name))` of the ini crate: the properties of the named
section, if present. -/
def IniData.getSection (c : IniData) (name : String) : Option (List (String × String)) :=
  (c.sections.find? (fun p => p.1 == name)).map (fun p => p.2)

/-- Filesystem as seen by `Ini::load_from_file`: a path resolves either to
parsed INI data or to a load/parse error message (file absent or malformed). -/
abbrev FileSys := String → Except String IniData

/-- The error type of the crate, restricted to the variants the sources use:
`Error::Configuration(String)` and `Error::Permission`. -/
inductive KError where
  | Configuration (msg : String)
  | Permission
deriving DecidableEq

/-- `KEY_LEN` from common.rs. -/
def KEY_LEN : Nat := 32

/-- `DEFAULT_CONFIG` from common.rs. -/
def DEFAULT_CONFIG : String := "/etc/keylime.conf"

/-- `SymmKey`: a key of len `KEY_LEN`; bytes are modelled as naturals. -/
structure SymmKey where
  bytes : List Nat
deriving DecidableEq

/-- `impl Default for SymmKey`: the all-zero key. -/
def SymmKey.default : SymmKey :=
  { bytes := List.replicate KEY_LEN 0 }

/-- `SymmKey::is_empty`: equality of the bytes with `[0u8; KEY_LEN]`. -/
def SymmKey.is_empty (k : SymmKey) : Bool :=
  k.bytes == List.replicate KEY_LEN 0

/-- `SymmKey::from_vec`: `copy_from_slice` panics when the source slice's
length differs from `KEY_LEN`; the panic is modelled as `none`. -/
def SymmKey.from_vec (v : List Nat) : Option SymmKey :=
  if v.length = KEY_LEN then some { bytes := v } else none

/-- `config_file_get`: the configuration file from the environment variable
`KEYLIME_CONFIG`, defaulting to `/etc/keylime.conf`. -/
def config_file_get (env : EnvMap) : String :=
  match env "KEYLIME_CONFIG" with
  | some cfg => if !cfg.isEmpty then cfg else DEFAULT_CONFIG
  | none => DEFAULT_CONFIG

/-- Modelled from the spec: the conversion applied by the `?` operator to an
`Ini::load_from_file` failure lives in src/error.rs, which is not among the
sources; spec section 7 assigns file-missing/unparseable failures to the
Configuration error kind, carrying the underlying message. -/
def iniLoadError (msg : String) : KError :=
  KError.Configuration msg

/-- `config_get`: load the file named by `config_file_get`, then look up the
section and the key, with the exact error messages of the source. -/
def config_get (env : EnvMap) (fs : FileSys) (sect key : String) : Except KError String :=
  let conf_name := config_file_get env
  match fs conf_name with
  | Except.error e => Except.error (iniLoadError e)
  | Except.ok conf =>
    match conf.getSection sect with
    | none =>
        Except.error (KError.Configuration
          ("Cannot find section called " ++ (sect ++ (" in file " ++ conf_name))))
    | some s =>
      match List.lookup key s with
      | none =>
          Except.error (KError.Configuration
            ("Cannot find key " ++ (key ++ (" in fine " ++ conf_name))))
      | some value => Except.ok value

/-- `config_get_env`: the environment variable wins when set and non-empty;
otherwise delegate to `config_get`. -/
def config_get_env (env : EnvMap) (fs : FileSys) (sect key envName : String) :
    Except KError String :=
  match env envName with
  | some v => if !v.isEmpty then Except.ok v else config_get env fs sect key
  | none => config_get env fs sect key

/-- `revocation_port_get`. -/
def revocation_port_get (env : EnvMap) (fs : FileSys) : Except KError String :=
  config_get_env env fs "general" "receive_revocation_port" "REVOCATION_PORT"

/-- `cloudagent_contact_ip_get`: any resolution error becomes `none`. -/
def cloudagent_contact_ip_get (env : EnvMap) (fs : FileSys) : Option String :=
  match config_get_env env fs "cloud_agent" "agent_contact_ip" "KEYLIME_AGENT_CONTACT_IP" with
  | Except.ok ip => some ip
  | Except.error _ => none

/-- Value of a list of decimal digit characters. -/
def digitsToNat (l : List Char) : Nat :=
  l.foldl (fun acc c => acc * 10 + (c.toNat - 48)) 0

/-- Rust's unsigned `from_str` skips one leading plus sign. -/
def stripPlus (cs : List Char) : List Char :=
  match cs with
  | [] => []
  | c :: rest => if c = '+' then rest else c :: rest

/-- `str::parse::<u32>`: optional leading plus sign, then one or more ASCII
digits; `none` on an empty digit string, a non-digit, or overflow past
`2^32 - 1`. -/
def parse_u32 (s : String) : Option Nat :=
  if (stripPlus s.data).isEmpty then none
  else if (stripPlus s.data).all Char.isDigit then
    if digitsToNat (stripPlus s.data) < 2 ^ 32 then
      some (digitsToNat (stripPlus s.data))
    else none
  else none

/-- `cloudagent_contact_port_get`: resolution errors become `Ok(None)`; a
resolved string that fails to parse as `u32` becomes a Configuration error. -/
def cloudagent_contact_port_get (env : EnvMap) (fs : FileSys) :
    Except KError (Option Nat) :=
  match config_get_env env fs "cloud_agent" "agent_contact_port" "KEYLIME_AGENT_CONTACT_PORT" with
  | Except.ok port_str =>
    match parse_u32 port_str with
    | some port => Except.ok (some port)
    | none =>
        Except.error (KError.Configuration
          ("Parse " ++ (port_str ++ " to a port number.")))
  | Except.error _ => Except.ok none

/-- A `chown(path, uid, gid)` system call issued by `chownroot`. -/
structure ChownCall where
  path : String
  uid : Nat
  gid : Nat
deriving DecidableEq

/-- `chownroot`: the effective uid and the outcome of the chown system call
are inputs; the output carries the result and the list of chown calls
actually issued, in order. -/
def chownroot (euid : Nat) (chownOk : String → Bool) (path : String) :
    Except KError String × List ChownCall :=
  if euid ≠ 0 then
    (Except.error KError.Permission, [])
  else if chownOk path then
    (Except.ok path, [{ path := path, uid := 0, gid := 0 }])
  else
    (Except.error KError.Permission, [{ path := path, uid := 0, gid := 0 }])

/-- Boolean: `needle` is a prefix of `hay`. -/
def prefixB : List Char → List Char → Bool
  | [], _ => true
  | _ :: _, [] => false
  | a :: as, b :: bs => a == b && prefixB as bs

/-- Boolean: `needle` occurs contiguously inside `hay`. -/
def infixB : List Char → List Char → Bool
  | needle, [] => prefixB needle []
  | needle, h :: t => prefixB needle (h :: t) || infixB needle t

/-- A string contains another as a contiguous substring. -/
def strContains (hay needle : String) : Bool :=
  infixB needle.data hay.data

/-! Concrete environments and filesystems used as test fixtures. -/

/-- Environment with every variable unset. -/
def envUnset : EnvMap := fun _ => none

/-- Environment with `REVOCATION_PORT` set to the empty string. -/
def envRevEmpty : EnvMap :=
  fun n => if n = "REVOCATION_PORT" then some "" else none

/-- Environment with `REVOCATION_PORT=9090`. -/
def envRev9090 : EnvMap :=
  fun n => if n = "REVOCATION_PORT" then some "9090" else none

/-- Environment with `KEYLIME_CONFIG=/tmp/testing.conf`. -/
def envKC : EnvMap :=
  fun n => if n = "KEYLIME_CONFIG" then some "/tmp/testing.conf" else none

/-- Environment with `KEYLIME_CONFIG` set to the empty string. -/
def envKCEmpty : EnvMap :=
  fun n => if n = "KEYLIME_CONFIG" then some "" else none

/-- Environment with `KEYLIME_AGENT_CONTACT_PORT=70000`. -/
def envPort70000 : EnvMap :=
  fun n => if n = "KEYLIME_AGENT_CONTACT_PORT" then some "70000" else none

/-- Environment with `KEYLIME_AGENT_CONTACT_PORT=4294967296`. -/
def envPortHuge : EnvMap :=
  fun n => if n = "KEYLIME_AGENT_CONTACT_PORT" then some "4294967296" else none

/-- Environment with `KEYLIME_AGENT_CONTACT_PORT=abc`. -/
def envPortAbc : EnvMap :=
  fun n => if n = "KEYLIME_AGENT_CONTACT_PORT" then some "abc" else none

/-- INI data holding only `[general]` with `receive_revocation_port = 8080`. -/
def iniGeneral8080 : IniData :=
  { sections := [("general", [("receive_revocation_port", "8080")])] }

/-- Filesystem where the default configuration path holds `iniGeneral8080`. -/
def fsRev : FileSys :=
  fun p => if p = DEFAULT_CONFIG then Except.ok iniGeneral8080 else Except.error "no such file"

/-- Filesystem with no loadable configuration file at all. -/
def fsMissing : FileSys := fun _ => Except.error "no such file"

/-! Helper lemmas about the substring check. -/

theorem data_append (a b : String) : (a ++ b).data = a.data ++ b.data := by
  cases a; cases b; rfl

theorem prefixB_append (b c : List Char) : prefixB b (b ++ c) = true := by
  induction b with
  | nil => rfl
  | cons x xs ih => simp [prefixB, ih]

theorem infixB_of_prefixB (n h : List Char) (hp : prefixB n h = true) :
    infixB n h = true := by
  cases h with
  | nil => exact hp
  | cons x xs => simp [infixB, hp]

theorem infixB_append_left (n a r : List Char) (hr : infixB n r = true) :
    infixB n (a ++ r) = true := by
  induction a with
  | nil => exact hr
  | cons x xs ih => simp [infixB, ih]

theorem infixB_parts (a b c : List Char) : infixB b (a ++ (b ++ c)) = true :=
  infixB_append_left b a (b ++ c) (infixB_of_prefixB b (b ++ c) (prefixB_append b c))

/-- The middle part of a three-way concatenation is always a substring. -/
theorem strContains_parts (hay a b c : String) (h : hay.data = a.data ++ (b.data ++ c.data)) :
    strContains hay b = true := by
  unfold strContains
  rw [h]
  exact infixB_parts a.data b.data c.data

/-! Claim theorems. -/

/-- Claim C3: a SymmKey built by `from_vec` from a 32-byte buffer `v` has
`bytes == v`, and `is_empty()` is true iff `v` is all zero; construction from
a buffer of any other length fails (the panic is modelled as `none`), never
silently truncating or padding. -/
theorem symmKey_from_vec_spec (v : List Nat) :
    (v.length = 32 → ∃ k, SymmKey.from_vec v = some k ∧ k.bytes = v ∧
      (k.is_empty = true ↔ ∀ b ∈ v, b = 0)) ∧
    (v.length ≠ 32 → SymmKey.from_vec v = none) := by
  constructor
  · intro hlen
    refine ⟨{ bytes := v }, ?_, rfl, ?_⟩
    · simp [SymmKey.from_vec, KEY_LEN, hlen]
    · show (v == List.replicate KEY_LEN 0) = true ↔ ∀ b ∈ v, b = 0
      rw [beq_iff_eq, List.eq_replicate_iff]
      simp [KEY_LEN, hlen]
  · intro hlen
    simp [SymmKey.from_vec, KEY_LEN, hlen]

/-- Witness for C3 at a concrete all-ones 32-byte buffer and a 3-byte buffer. -/
theorem symmKey_from_vec_spec_witness :
    (∃ k, SymmKey.from_vec (List.replicate 32 1) = some k ∧
      k.bytes = List.replicate 32 1 ∧
      (k.is_empty = true ↔ ∀ b ∈ List.replicate 32 1, b = 0)) ∧
    SymmKey.from_vec [0, 1, 2] = none :=
  ⟨(symmKey_from_vec_spec (List.replicate 32 1)).1 (by decide),
   (symmKey_from_vec_spec [0, 1, 2]).2 (by decide)⟩

/-- Claim C10: `from_vec` of the 32-byte all-zero buffer is byte-for-byte the
default-constructed key, and that key satisfies `is_empty() == true`: a
legitimately all-zero key is indistinguishable from the unset sentinel. -/
theorem symmKey_zero_equals_default :
    SymmKey.from_vec (List.replicate 32 0) = some SymmKey.default ∧
    SymmKey.is_empty SymmKey.default = true := by
  constructor
  · simp [SymmKey.from_vec, KEY_LEN, SymmKey.default]
  · simp [SymmKey.is_empty, SymmKey.default]

/-- Claim C4: `chownroot` called with a non-root effective uid fails with a
Permission error and issues no chown system call at all. -/
theorem chownroot_unprivileged (euid : Nat) (chownOk : String → Bool)
    (path : String) (h : euid ≠ 0) :
    chownroot euid chownOk path = (Except.error KError.Permission, []) := by
  simp [chownroot, h]

/-- Witness for C4 at effective uid 1000. -/
theorem chownroot_unprivileged_witness :
    (1000 : Nat) ≠ 0 ∧
    chownroot 1000 (fun _ => true) "/var/lib/keylime/secure" =
      (Except.error KError.Permission, []) :=
  ⟨by decide,
   chownroot_unprivileged 1000 (fun _ => true) "/var/lib/keylime/secure" (by decide)⟩

/-- Claim C8: whenever `chownroot` succeeds, the returned string is the input
path unchanged. -/
theorem chownroot_success_returns_path (euid : Nat) (chownOk : String → Bool)
    (path s : String) (h : (chownroot euid chownOk path).1 = Except.ok s) :
    s = path := by
  by_cases h0 : euid = 0
  · by_cases hc : chownOk path
    · simp [chownroot, h0, hc] at h
      exact h.symm
    · simp [chownroot, h0, hc] at h
  · simp [chownroot, h0] at h

/-- Witness for C8 at a concrete successful run. -/
theorem chownroot_success_returns_path_witness :
    (chownroot 0 (fun _ => true) "/tmp/keylime").1 = Except.ok "/tmp/keylime" ∧
    "/tmp/keylime" = "/tmp/keylime" :=
  ⟨rfl, chownroot_success_returns_path 0 (fun _ => true) "/tmp/keylime" "/tmp/keylime" rfl⟩

/-- Claim C6: `config_file_get` returns the value of `KEYLIME_CONFIG` exactly
when it is set and non-empty, and the fixed default `/etc/keylime.conf`
otherwise; being a total function into `String`, it never fails. -/
theorem config_file_get_spec (env : EnvMap) :
    (∀ v, env "KEYLIME_CONFIG" = some v → v ≠ "" → config_file_get env = v) ∧
    ((env "KEYLIME_CONFIG" = none ∨ env "KEYLIME_CONFIG" = some "") →
      config_file_get env = DEFAULT_CONFIG) := by
  constructor
  · intro v hv hne
    have hemp : v.isEmpty = false := by
      rcases Bool.eq_false_or_eq_true v.isEmpty with h | h
      · exact absurd ((String.isEmpty_iff v).mp h) hne
      · exact h
    simp [config_file_get, hv, hemp]
  · intro hv
    rcases hv with h | h
    · simp [config_file_get, h]
    · simp [config_file_get, h]
      intro hf
      exact absurd hf (by decide)

/-- Witness for C6: a set, an unset, and an empty `KEYLIME_CONFIG`. -/
theorem config_file_get_spec_witness :
    config_file_get envKC = "/tmp/testing.conf" ∧
    config_file_get envUnset = DEFAULT_CONFIG ∧
    config_file_get envKCEmpty = DEFAULT_CONFIG :=
  ⟨(config_file_get_spec envKC).1 "/tmp/testing.conf" rfl (by decide),
   (config_file_get_spec envUnset).2 (Or.inl rfl),
   (config_file_get_spec envKCEmpty).2 (Or.inr rfl)⟩

/-- Claim C1: a set, non-empty environment variable wins unconditionally (the
result does not depend on the filesystem at all); an unset or empty variable
delegates to `config_get`. -/
theorem config_get_env_precedence (env : EnvMap) (fs fs2 : FileSys)
    (sect key envName : String) :
    (∀ v, env envName = some v → v ≠ "" →
      config_get_env env fs sect key envName = Except.ok v ∧
      config_get_env env fs sect key envName =
        config_get_env env fs2 sect key envName) ∧
    ((env envName = none ∨ env envName = some "") →
      config_get_env env fs sect key envName = config_get env fs sect key) := by
  constructor
  · intro v hv hne
    have hemp : v.isEmpty = false := by
      rcases Bool.eq_false_or_eq_true v.isEmpty with h | h
      · exact absurd ((String.isEmpty_iff v).mp h) hne
      · exact h
    constructor <;> simp [config_get_env, hv, hemp]
  · intro hv
    rcases hv with h | h
    · simp [config_get_env, h]
    · simp [config_get_env, h]
      intro hf
      exact absurd hf (by decide)

/-- Witness for C1: with `REVOCATION_PORT=9090` the result is `9090` on two
very different filesystems; with it unset, the result is the file lookup. -/
theorem config_get_env_precedence_witness :
    (config_get_env envRev9090 fsMissing "general" "receive_revocation_port"
        "REVOCATION_PORT" = Except.ok "9090" ∧
      config_get_env envRev9090 fsMissing "general" "receive_revocation_port"
        "REVOCATION_PORT" =
      config_get_env envRev9090 fsRev "general" "receive_revocation_port"
        "REVOCATION_PORT") ∧
    config_get_env envUnset fsRev "general" "receive_revocation_port"
      "REVOCATION_PORT" =
      config_get envUnset fsRev "general" "receive_revocation_port" :=
  ⟨(config_get_env_precedence envRev9090 fsMissing fsRev "general"
      "receive_revocation_port" "REVOCATION_PORT").1 "9090" rfl (by decide),
   (config_get_env_precedence envUnset fsRev fsRev "general"
      "receive_revocation_port" "REVOCATION_PORT").2 (Or.inl rfl)⟩

/-- Claim C7: end-to-end, with `REVOCATION_PORT` unset or empty and
`[general] receive_revocation_port = 8080` in the file, `revocation_port_get`
returns `8080`; with `REVOCATION_PORT=9090` it returns `9090` for every
filesystem. -/
theorem revocation_port_get_end_to_end :
    revocation_port_get envUnset fsRev = Except.ok "8080" ∧
    revocation_port_get envRevEmpty fsRev = Except.ok "8080" ∧
    ∀ fs : FileSys, revocation_port_get envRev9090 fs = Except.ok "9090" := by
  refine ⟨rfl, rfl, ?_⟩
  intro fs
  rfl

/-- Claim C5: both contact wrappers turn every resolution error into an
absent value (`None` resp. `Ok(None)`), a successful resolution is passed
through, and a resolved string that does not parse as `u32` surfaces as a
Configuration parse error rather than an absent value. -/
theorem contact_wrappers_downgrade (env : EnvMap) (fs : FileSys) :
    (∀ e, config_get_env env fs "cloud_agent" "agent_contact_ip"
        "KEYLIME_AGENT_CONTACT_IP" = Except.error e →
      cloudagent_contact_ip_get env fs = none) ∧
    (∀ ip, config_get_env env fs "cloud_agent" "agent_contact_ip"
        "KEYLIME_AGENT_CONTACT_IP" = Except.ok ip →
      cloudagent_contact_ip_get env fs = some ip) ∧
    (∀ e, config_get_env env fs "cloud_agent" "agent_contact_port"
        "KEYLIME_AGENT_CONTACT_PORT" = Except.error e →
      cloudagent_contact_port_get env fs = Except.ok none) ∧
    (∀ s, config_get_env env fs "cloud_agent" "agent_contact_port"
        "KEYLIME_AGENT_CONTACT_PORT" = Except.ok s →
      parse_u32 s = none →
      cloudagent_contact_port_get env fs = Except.error
        (KError.Configuration ("Parse " ++ (s ++ " to a port number.")))) := by
  refine ⟨?_, ?_, ?_, ?_⟩
  · intro e he
    simp [cloudagent_contact_ip_get, he]
  · intro ip hip
    simp [cloudagent_contact_ip_get, hip]
  · intro e he
    simp [cloudagent_contact_port_get, he]
  · intro s hs hp
    simp [cloudagent_contact_port_get, hs, hp]

/-- Witness for C5: with nothing set and no file, both wrappers return an
absent value; with the port set to `abc`, a Configuration parse error. -/
theorem contact_wrappers_downgrade_witness :
    cloudagent_contact_ip_get envUnset fsMissing = none ∧
    cloudagent_contact_port_get envUnset fsMissing = Except.ok none ∧
    cloudagent_contact_port_get envPortAbc fsMissing = Except.error
      (KError.Configuration ("Parse " ++ ("abc" ++ " to a port number."))) :=
  ⟨(contact_wrappers_downgrade envUnset fsMissing).1 (iniLoadError "no such file") rfl,
   (contact_wrappers_downgrade envUnset fsMissing).2.2.1 (iniLoadError "no such file") rfl,
   (contact_wrappers_downgrade envPortAbc fsMissing).2.2.2 "abc" rfl rfl⟩

theorem stripPlus_digits (cs : List Char) (hdig : cs.all Char.isDigit = true) :
    stripPlus cs = cs := by
  cases cs with
  | nil => rfl
  | cons c rest =>
    have hc : c.isDigit = true :=
      (List.all_eq_true.mp hdig) c (List.mem_cons_self c rest)
    have hne : c ≠ '+' := by
      intro h
      rw [h] at hc
      exact absurd hc (by decide)
    simp [stripPlus, hne]

theorem parse_u32_digits (s : String) (hne : s.data ≠ [])
    (hdig : s.data.all Char.isDigit = true) :
    parse_u32 s =
      if digitsToNat s.data < 2 ^ 32 then some (digitsToNat s.data) else none := by
  have hemp : s.data.isEmpty = false := by
    cases h : s.data with
    | nil => exact absurd h hne
    | cons a l => rfl
  rw [parse_u32, stripPlus_digits s.data hdig]
  simp [hemp, hdig]

/-- Claim C9: when the resolved contact-port string is a nonempty string of
decimal digits, every value up to 4294967295 (so including values above
65535) is accepted and returned, while a value beyond 4294967295 yields a
Configuration error. -/
theorem contact_port_parses_u32 (env : EnvMap) (fs : FileSys) (s : String)
    (hres : config_get_env env fs "cloud_agent" "agent_contact_port"
      "KEYLIME_AGENT_CONTACT_PORT" = Except.ok s)
    (hne : s.data ≠ []) (hdig : s.data.all Char.isDigit = true) :
    (digitsToNat s.data ≤ 4294967295 →
      cloudagent_contact_port_get env fs = Except.ok (some (digitsToNat s.data))) ∧
    (4294967295 < digitsToNat s.data →
      cloudagent_contact_port_get env fs = Except.error
        (KError.Configuration ("Parse " ++ (s ++ " to a port number.")))) := by
  have hp := parse_u32_digits s hne hdig
  have h32 : (2 : Nat) ^ 32 = 4294967296 := by norm_num
  constructor
  · intro hle
    have hlt : digitsToNat s.data < 2 ^ 32 := by omega
    rw [if_pos hlt] at hp
    simp [cloudagent_contact_port_get, hres, hp]
  · intro hgt
    have hlt : ¬ digitsToNat s.data < 2 ^ 32 := by omega
    rw [if_neg hlt] at hp
    simp [cloudagent_contact_port_get, hres, hp]

/-- Witness for C9: `70000` (above 65535) is accepted; `4294967296` is
rejected with a Configuration error. -/
theorem contact_port_parses_u32_witness :
    cloudagent_contact_port_get envPort70000 fsMissing =
      Except.ok (some (digitsToNat "70000".data)) ∧
    cloudagent_contact_port_get envPortHuge fsMissing = Except.error
      (KError.Configuration ("Parse " ++ ("4294967296" ++ " to a port number."))) :=
  ⟨(contact_port_parses_u32 envPort70000 fsMissing "70000" rfl (by decide)
      (by decide)).1 (by decide),
   (contact_port_parses_u32 envPortHuge fsMissing "4294967296" rfl (by decide)
      (by decide)).2 (by decide)⟩

/-- Claim C2 (amended): `config_get` returns the exact stored value when the
(section, key) pair is present; when the file cannot be loaded it fails with
the (spec-modelled) Configuration error wrapping the loader's message; when
the section is missing it fails with a Configuration error whose payload
contains the section name and the file name; when the key is missing within
an existing section it fails with a Configuration error whose payload
contains the key name and the file name (but not, in general, the section
name). -/
theorem config_get_spec (env : EnvMap) (fs : FileSys) (sect key : String) :
    (∀ conf s v, fs (config_file_get env) = Except.ok conf →
      conf.getSection sect = some s → List.lookup key s = some v →
      config_get env fs sect key = Except.ok v) ∧
    (∀ e, fs (config_file_get env) = Except.error e →
      config_get env fs sect key = Except.error (iniLoadError e)) ∧
    (∀ conf, fs (config_file_get env) = Except.ok conf →
      conf.getSection sect = none →
      ∃ msg, config_get env fs sect key = Except.error (KError.Configuration msg) ∧
        strContains msg sect = true ∧
        strContains msg (config_file_get env) = true) ∧
    (∀ conf s, fs (config_file_get env) = Except.ok conf →
      conf.getSection sect = some s → List.lookup key s = none →
      ∃ msg, config_get env fs sect key = Except.error (KError.Configuration msg) ∧
        strContains msg key = true ∧
        strContains msg (config_file_get env) = true) := by
  refine ⟨?_, ?_, ?_, ?_⟩
  · intro conf s v hfs hsec hkey
    simp [config_get, hfs, hsec, hkey]
  · intro e hfs
    simp [config_get, hfs]
  · intro conf hfs hsec
    refine ⟨"Cannot find section called " ++
      (sect ++ (" in file " ++ config_file_get env)), ?_, ?_, ?_⟩
    · simp [config_get, hfs, hsec]
    · apply strContains_parts _ "Cannot find section called " sect
        (" in file " ++ config_file_get env)
      simp [data_append]
    · apply strContains_parts _
        ("Cannot find section called " ++ (sect ++ " in file "))
        (config_file_get env) ""
      simp [data_append]
  · intro conf s hfs hsec hkey
    refine ⟨"Cannot find key " ++
      (key ++ (" in fine " ++ config_file_get env)), ?_, ?_, ?_⟩
    · simp [config_get, hfs, hsec, hkey]
    · apply strContains_parts _ "Cannot find key " key
        (" in fine " ++ config_file_get env)
      simp [data_append]
    · apply strContains_parts _
        ("Cannot find key " ++ (key ++ " in fine "))
        (config_file_get env) ""
      simp [data_append]

/-- Witness for C2 (amended): a present pair is returned exactly; a missing
file, a missing section, and a missing key each produce the corresponding
Configuration error. -/
theorem config_get_spec_witness :
    config_get envUnset fsRev "general" "receive_revocation_port" =
      Except.ok "8080" ∧
    config_get envUnset fsMissing "general" "receive_revocation_port" =
      Except.error (iniLoadError "no such file") ∧
    (∃ msg, config_get envUnset fsRev "cloud_agent" "registrar_ip" =
        Except.error (KError.Configuration msg) ∧
      strContains msg "cloud_agent" = true ∧
      strContains msg (config_file_get envUnset) = true) ∧
    (∃ msg, config_get envUnset fsRev "general" "receive_revocation_ip" =
        Except.error (KError.Configuration msg) ∧
      strContains msg "receive_revocation_ip" = true ∧
      strContains msg (config_file_get envUnset) = true) :=
  ⟨(config_get_spec envUnset fsRev "general" "receive_revocation_port").1
      iniGeneral8080 [("receive_revocation_port", "8080")] "8080" rfl rfl rfl,
   (config_get_spec envUnset fsMissing "general" "receive_revocation_port").2.1
      "no such file" rfl,
   (config_get_spec envUnset fsRev "cloud_agent" "registrar_ip").2.2.1
      iniGeneral8080 rfl rfl,
   (config_get_spec envUnset fsRev "general" "receive_revocation_ip").2.2.2
      iniGeneral8080 [("receive_revocation_port", "8080")] rfl rfl rfl⟩

/-- Counterexample to C2 as stated: with the file present and holding only
`[general] receive_revocation_port = 8080`, looking up the missing key
`port` in the existing section `general` yields a Configuration error whose
payload does not contain the offending section name `general` (it names only
the key and the file), so the error payload does not include section, key,
and file name all at once. -/
theorem config_get_missing_key_counterexample :
    config_get envUnset fsRev "general" "port" =
      Except.error (KError.Configuration
        ("Cannot find key " ++ ("port" ++ (" in fine " ++ DEFAULT_CONFIG)))) ∧
    strContains ("Cannot find key " ++ ("port" ++ (" in fine " ++ DEFAULT_CONFIG)))
      "general" = false := by
  constructor
  · rfl
  · rfl

end Keylime
